import Mathlib

/-!
Verification of the daily email scheduler pipeline
(`src/dailyemail/daily_scheduler.py`).

The development shallowly embeds the program: time is measured in minutes
since an epoch (`1440` minutes per day), external effects (the AI backend,
the SMTP transport, `random.choice`) are passed in as explicit inputs, and
Python exceptions are modelled with `Except String`, where an `.error`
value at a boundary means an exception escaped that boundary.
-/

/-- Minutes in one calendar day. -/
def minutesPerDay : Nat := 1440

/-- Calendar date of an absolute time in minutes. -/
def dateOf (t : Nat) : Nat := t / minutesPerDay

/-- Time of day (minutes past midnight) of an absolute time. -/
def todOf (t : Nat) : Nat := t % minutesPerDay

/-- The literal time-of-day string passed to the `schedule` library at
daily_scheduler.py:207 (`schedule.every().day.at("23:50:00")`). -/
def registeredFireTime : String := "23:50:00"

/-- `registeredFireTime` parsed to minutes past midnight: 23*60+50. -/
def fireTodMinutes : Nat := 23 * 60 + 50

/-- One job record of the third-party `schedule` library, as used by
`Scheduler.schedule_daily_email` (daily_scheduler.py:207): a daily job with
a fixed at-time keeps an absolute `next_run` instant and the instant of its
last run. Embeds the fields of `schedule.Job` that the daily at-time job
uses. -/
structure SchedJob where
  nextRun : Nat
  lastRun : Option Nat
  deriving Repr, DecidableEq

/-- The `schedule` library recomputation of `next_run` at instant `now`
(`Job._schedule_next_run` with `unit = days`, `interval = 1`,
`at_time = 23:50:00`): tentatively `now` plus one day with the time of day
replaced by the at-time; then the catch-up branch — taken when `last_run`
is unset or `next_run - last_run > period`, which here reduces to the
at-time still being ahead of the time of day of `now` — pulls `next_run`
back one day, so a job that is rescheduled before the at-time of the
current date still runs on that date. The same formula therefore covers
both initial registration and the reschedule after a run. -/
def nextOccurrenceAfterRun (now : Nat) : Nat :=
  let n := ((now + minutesPerDay) / minutesPerDay) * minutesPerDay + fireTodMinutes
  if todOf now < fireTodMinutes then n - minutesPerDay else n

/-- The `schedule` library initial `next_run` at registration instant `now`
(`Job._schedule_next_run` with `last_run = None`). -/
def initJob (now : Nat) : SchedJob :=
  { nextRun := nextOccurrenceAfterRun now, lastRun := none }

/-- One `schedule.run_pending` visit to one job at wake instant `now`
(`Job.should_run` then `Job.run`): when `next_run ≤ now` the job function
runs — here the dispatch attempt, whose outcome `o` the library ignores —
and `last_run`/`next_run` are updated regardless of `o` (including the
catch-up pull-back of `nextOccurrenceAfterRun` when the run happened
before the at-time of its date); otherwise the job is untouched. Returns
the new job state and whether the job fired. -/
def runPendingJob (now : Nat) (o : Bool) (j : SchedJob) : SchedJob × Bool :=
  if j.nextRun ≤ now then
    ({ nextRun := nextOccurrenceAfterRun now, lastRun := some now }, true)
  else (j, false)

/-- The poll loop of `Scheduler.start_scheduler` (daily_scheduler.py:222-225)
restricted to the single registered daily job: `wakes` is the sequence of
instants at which `run_pending` is called, `o` the dispatch outcome each
time; the result is the list of instants at which the job fired. -/
def pollFires (o : Bool) : List Nat → SchedJob → List Nat
  | [], _ => []
  | now :: rest, j =>
    if j.nextRun ≤ now then now :: pollFires o rest (runPendingJob now o j).1
    else pollFires o rest j

theorem dateOf_nextOccurrenceAfterRun_ge (now : Nat) :
    dateOf now ≤ dateOf (nextOccurrenceAfterRun now) := by
  simp only [dateOf, nextOccurrenceAfterRun, todOf, minutesPerDay, fireTodMinutes]
  split <;> omega

theorem dateOf_nextOccurrenceAfterRun_ontime (now : Nat)
    (h : fireTodMinutes ≤ todOf now) :
    dateOf (nextOccurrenceAfterRun now) = dateOf now + 1 := by
  simp only [todOf, minutesPerDay, fireTodMinutes] at h
  simp only [dateOf, nextOccurrenceAfterRun, todOf, minutesPerDay, fireTodMinutes]
  split <;> omega

theorem dateOf_mono {a b : Nat} (h : a ≤ b) : dateOf a ≤ dateOf b :=
  Nat.div_le_div_right h

/-- Every instant at which `pollFires` fires lies on or after the date of
the pending `next_run`. -/
theorem pollFires_date_lb (o : Bool) :
    ∀ (wakes : List Nat) (j : SchedJob),
      ∀ t ∈ pollFires o wakes j, dateOf j.nextRun ≤ dateOf t := by
  intro wakes
  induction wakes with
  | nil => intro j t ht; simp [pollFires] at ht
  | cons now rest ih =>
    intro j t ht
    by_cases hdue : j.nextRun ≤ now
    · rw [pollFires, if_pos hdue] at ht
      rcases List.mem_cons.mp ht with rfl | ht
      · exact dateOf_mono hdue
      · have hlb := ih _ t ht
        rw [runPendingJob, if_pos hdue] at hlb
        have hge : dateOf (nextOccurrenceAfterRun now)
            ≤ dateOf t := hlb
        exact le_trans (dateOf_mono hdue)
          (le_trans (dateOf_nextOccurrenceAfterRun_ge now) hge)
    · rw [pollFires, if_neg hdue] at ht
      exact ih _ t ht

/-- When every fire of the trace happens at or after the at-time of its
date (no fire-to-midnight window was skipped, so the catch-up pull-back is
never taken after a fire), the fire instants have strictly increasing
calendar dates. -/
theorem pollFires_dates_strict (o : Bool) :
    ∀ (wakes : List Nat) (j : SchedJob),
      (∀ t ∈ pollFires o wakes j, fireTodMinutes ≤ todOf t) →
      (pollFires o wakes j).Pairwise (fun a b => dateOf a < dateOf b) := by
  intro wakes
  induction wakes with
  | nil => intro j _; simp [pollFires]
  | cons now rest ih =>
    intro j hontime
    by_cases hdue : j.nextRun ≤ now
    · rw [pollFires, if_pos hdue] at hontime ⊢
      have hnow : fireTodMinutes ≤ todOf now :=
        hontime now (List.mem_cons_self _ _)
      have htail : ∀ t ∈ pollFires o rest (runPendingJob now o j).1,
          fireTodMinutes ≤ todOf t :=
        fun t ht => hontime t (List.mem_cons_of_mem _ ht)
      refine List.Pairwise.cons ?_ (ih _ htail)
      intro b hb
      have hlb := pollFires_date_lb o rest _ b hb
      rw [runPendingJob, if_pos hdue] at hlb
      have hge : dateOf (nextOccurrenceAfterRun now) ≤ dateOf b := hlb
      rw [dateOf_nextOccurrenceAfterRun_ontime now hnow] at hge
      omega
    · rw [pollFires, if_neg hdue] at hontime ⊢
      exact ih _ hontime

/-- C1 counterexample: starting from a job registered at instant 0 (due day
0 at 23:50), a poll loop that misses the whole day-0 fire window and wakes
at day 1 01:00 and day 1 23:52 fires twice — at 1500 and 2872, both on
calendar date 1 — because the catch-up pull-back of `_schedule_next_run`
reschedules the overdue morning fire to the same date at 23:50. The
claimed for-all-wake-sequences distinct-dates property is therefore
false. -/
theorem c1_counterexample :
    pollFires true [1500, 2872] (initJob 0) = [1500, 2872] ∧
    dateOf 1500 = 1 ∧ dateOf 2872 = 1 ∧
    ¬ (pollFires true [1500, 2872] (initJob 0)).Pairwise
        (fun a b => dateOf a ≠ dateOf b) := by
  refine ⟨by decide, by decide, by decide, ?_⟩
  intro hpw
  rw [(by decide : pollFires true [1500, 2872] (initJob 0) = [1500, 2872])] at hpw
  have hrel := (List.pairwise_cons.mp hpw).1 2872 (by simp)
  exact hrel (by decide)

/-- C1 (amended): provided every fire of the trace happens at or after the
registered fire time of day on its date — which holds whenever the poll
loop does not skip an entire 23:50-to-midnight window, as a
sleep-one-minute loop does not — the daily job fires at most once per
calendar date (all fire instants have pairwise distinct dates), and an
on-time dispatch attempt, whatever its outcome `oo`, moves `next_run` to
the next calendar date, so no same-day re-attempt is possible. -/
theorem c1_at_most_once_per_date (o : Bool) (wakes : List Nat) (j : SchedJob)
    (hontime : ∀ t ∈ pollFires o wakes j, fireTodMinutes ≤ todOf t) :
    (pollFires o wakes j).Pairwise (fun a b => dateOf a ≠ dateOf b) ∧
    (∀ (now : Nat) (jj : SchedJob) (oo : Bool), jj.nextRun ≤ now →
      fireTodMinutes ≤ todOf now →
      dateOf ((runPendingJob now oo jj).1.nextRun) = dateOf now + 1) := by
  constructor
  · exact (pollFires_dates_strict o wakes j hontime).imp (fun h => Nat.ne_of_lt h)
  · intro now jj oo hdue hnow
    rw [runPendingJob, if_pos hdue]
    exact dateOf_nextOccurrenceAfterRun_ontime now hnow

/-- Concrete instance of C1: a job due at 23:50 of day 0, polled every five
minutes across the boundary, fires only at on-time instants with distinct
dates, and an on-time dispatch bumps `next_run` to day 1. -/
theorem c1_witness :
    (pollFires true [1430, 1435, 1440, 2870, 2875] (initJob 0)).Pairwise
      (fun a b => dateOf a ≠ dateOf b) ∧
    dateOf ((runPendingJob 1430 false (initJob 0)).1.nextRun) = dateOf 1430 + 1 :=
  ⟨(c1_at_most_once_per_date true [1430, 1435, 1440, 2870, 2875] (initJob 0)
      (by decide)).1,
   (c1_at_most_once_per_date true [] (initJob 0) (by decide)).2
      1430 (initJob 0) false (by decide) (by decide)⟩

/-- The double-quote character removed by `topic.replace(CHAR34, "")` at
daily_scheduler.py:52. -/
def quoteChar : Char := Char.ofNat 34

/-- The single-quote character removed by the second replace at
daily_scheduler.py:52. -/
def aposChar : Char := Char.ofNat 39

/-- Python `str.strip()` on a character list: drop whitespace from both
ends. -/
def pyStripChars (s : List Char) : List Char :=
  ((s.dropWhile Char.isWhitespace).reverse.dropWhile Char.isWhitespace).reverse

/-- Python `str.strip()` on strings. -/
def pyStrip (s : String) : String := String.mk (pyStripChars s.data)

/-- Python `str.replace(c, "")` for a one-character pattern: delete every
occurrence of `c`. -/
def pyRemoveChar (c : Char) (s : List Char) : List Char :=
  s.filter (fun x => !(x == c))

/-- The response cleanup of `generate_daily_topic`
(daily_scheduler.py:49-52): `response.text.strip()`, then
`.replace(CHAR34, "").replace(CHAR39, "")`, then `.strip()`. -/
def cleanTopicChars (s : List Char) : List Char :=
  pyStripChars (pyRemoveChar aposChar (pyRemoveChar quoteChar (pyStripChars s)))

/-- String form of `cleanTopicChars`. -/
def cleanTopic (s : String) : String := String.mk (cleanTopicChars s.data)

/-- The fallback list of `DailyTopicGenerator._fallback_topic`
(daily_scheduler.py:61-77), verbatim. -/
def fallbackTopics : List String :=
  ["Artificial Intelligence in Healthcare",
   "Sustainable Technology Solutions",
   "Remote Work Best Practices in 2024",
   "Blockchain Beyond Cryptocurrency",
   "Cybersecurity Trends for Small Businesses",
   "The Future of Renewable Energy",
   "Mental Health in the Digital Age",
   "Space Technology and Commercialization",
   "Quantum Computing Applications",
   "Digital Marketing Strategies for 2024",
   "Climate Change and Technology Solutions",
   "The Metaverse and Virtual Reality",
   "Bioengineering and Medical Advancements",
   "5G and IoT Integration",
   "Sustainable Agriculture Technology"]

/-- `DailyTopicGenerator._fallback_topic` (daily_scheduler.py:59-78):
`random.choice(topics)` modelled as indexing by a uniformly drawn natural
number `r` reduced modulo the list length. -/
def fallback_topic (r : Nat) : String :=
  fallbackTopics.get ⟨r % fallbackTopics.length, Nat.mod_lt r (by decide)⟩

/-- The external inputs of one `DailyTopicGenerator` generation call:
whether a Gemini model is configured (daily_scheduler.py:24-29), the
outcome of each `model.generate_content(...).text` access (an `.error`
models a raised exception), and the random draw consumed by
`random.choice`. -/
structure GenEnv where
  modelConfigured : Bool
  topicResponse : Except String String
  descResponse : Except String String
  rand : Nat

/-- `DailyTopicGenerator.generate_daily_topic` (daily_scheduler.py:31-57):
no model configured returns a fallback topic; a successful AI response is
cleaned with `cleanTopic`; the `except Exception` arm converts any raised
error into a fallback topic. The result is `Except` so an `.error` would
mean an exception escaped the method. -/
def generate_daily_topic (env : GenEnv) : Except String String :=
  if env.modelConfigured = false then Except.ok (fallback_topic env.rand)
  else
    match env.topicResponse with
    | Except.ok text => Except.ok (cleanTopic text)
    | Except.error _ => Except.ok (fallback_topic env.rand)

/-- `DailyTopicGenerator.generate_topic_description`
(daily_scheduler.py:80-96): no model configured returns the short template;
a successful AI response is returned stripped; the `except Exception` arm
returns the longer template. -/
def generate_topic_description (env : GenEnv) (topic : String) : Except String String :=
  if env.modelConfigured = false then
    Except.ok ("Explore the latest developments and insights about " ++ topic ++ ".")
  else
    match env.descResponse with
    | Except.ok text => Except.ok (pyStrip text)
    | Except.error _ =>
        Except.ok ("Explore the latest developments and insights about " ++ topic
          ++ ". This topic offers great opportunities for learning and professional growth.")

/-- C2: neither generation operation ever propagates an exception — for
every environment (model missing, response delivered, or the underlying
call raising) both `generate_daily_topic` and `generate_topic_description`
return an `Except.ok` value. -/
theorem c2_generation_never_raises (env : GenEnv) (topic : String) :
    (∃ a, generate_daily_topic env = Except.ok a) ∧
    (∃ b, generate_topic_description env topic = Except.ok b) := by
  constructor
  · rcases h : env.modelConfigured with _ | _
    · exact ⟨fallback_topic env.rand, by simp [generate_daily_topic, h]⟩
    · rcases hr : env.topicResponse with e | t
      · exact ⟨fallback_topic env.rand, by simp [generate_daily_topic, h, hr]⟩
      · exact ⟨cleanTopic t, by simp [generate_daily_topic, h, hr]⟩
  · rcases h : env.modelConfigured with _ | _
    · exact ⟨"Explore the latest developments and insights about " ++ topic ++ ".",
        by simp [generate_topic_description, h]⟩
    · rcases hr : env.descResponse with e | t
      · exact ⟨"Explore the latest developments and insights about " ++ topic
            ++ ". This topic offers great opportunities for learning and professional growth.",
          by simp [generate_topic_description, h, hr]⟩
      · exact ⟨pyStrip t, by simp [generate_topic_description, h, hr]⟩

/-- C4: the fallback list has exactly 15 (hence at least 15) entries; every
random draw selects a member of the list; the 15 equally likely residues
enumerate the list exactly (uniform selection, one entry per residue); and
with no AI backend configured `generate_daily_topic` returns precisely the
fallback pick for the random draw of that call, carrying no other state. -/
theorem c4_fallback_uniform (r : Nat) (env : GenEnv)
    (h : env.modelConfigured = false) :
    fallbackTopics.length = 15 ∧
    fallback_topic r ∈ fallbackTopics ∧
    (List.range 15).map fallback_topic = fallbackTopics ∧
    generate_daily_topic env = Except.ok (fallback_topic env.rand) := by
  refine ⟨rfl, ?_, by decide, ?_⟩
  · unfold fallback_topic
    exact List.get_mem _ _ _
  · simp [generate_daily_topic, h]

/-- Concrete instance of C4: with no backend configured and random draw 3,
the generator returns the fourth fallback topic. -/
theorem c4_witness :
    generate_daily_topic
      { modelConfigured := false, topicResponse := Except.error "",
        descResponse := Except.error "", rand := 3 }
      = Except.ok (fallback_topic 3) :=
  (c4_fallback_uniform 3
    { modelConfigured := false, topicResponse := Except.error "",
      descResponse := Except.error "", rand := 3 } rfl).2.2.2

theorem pyStripChars_sublist (l : List Char) :
    List.Sublist (pyStripChars l) l := by
  unfold pyStripChars
  have h1 : List.Sublist (l.dropWhile Char.isWhitespace) l :=
    List.dropWhile_sublist _
  have h2 : List.Sublist
      ((l.dropWhile Char.isWhitespace).reverse.dropWhile Char.isWhitespace)
      (l.dropWhile Char.isWhitespace).reverse :=
    List.dropWhile_sublist _
  have h3 := List.reverse_sublist.mpr h2
  rw [List.reverse_reverse] at h3
  exact h3.trans h1

theorem cleanTopicChars_sublist (l : List Char) :
    List.Sublist (cleanTopicChars l) l := by
  unfold cleanTopicChars pyRemoveChar
  refine (pyStripChars_sublist _).trans ?_
  refine (List.filter_sublist _).trans ?_
  exact (List.filter_sublist _).trans (pyStripChars_sublist l)

theorem cleanTopicChars_no_quotes (l : List Char) :
    ∀ c ∈ cleanTopicChars l, c ≠ quoteChar ∧ c ≠ aposChar := by
  intro c hc
  unfold cleanTopicChars pyRemoveChar at hc
  have hmem := (pyStripChars_sublist _).subset hc
  have h1 := List.mem_filter.mp hmem
  have h2 := List.mem_filter.mp h1.1
  constructor
  · simpa using h2.2
  · simpa using h1.2

/-- C8 (amended): with the model configured and a successful response `s`,
`generate_daily_topic` returns `cleanTopic s`, which deletes characters
only (the result is a sublist of `s`) and contains no double-quote or
single-quote character anywhere — interior occurrences included. -/
theorem c8_quote_cleaning (env : GenEnv) (s : String)
    (h1 : env.modelConfigured = true) (h2 : env.topicResponse = Except.ok s) :
    generate_daily_topic env = Except.ok (cleanTopic s) ∧
    List.Sublist (cleanTopic s).data s.data ∧
    ∀ c ∈ (cleanTopic s).data, c ≠ quoteChar ∧ c ≠ aposChar := by
  refine ⟨?_, cleanTopicChars_sublist s.data, cleanTopicChars_no_quotes s.data⟩
  simp [generate_daily_topic, h1, h2]

/-- A response whose only quote character is interior. -/
def interiorExample : String := "Don" ++ String.singleton aposChar ++ "t Panic"

/-- The spec reading of the cleanup, for refinement comparison — modelled
from the spec words "strip surrounding quotes/whitespace from the response
and return it", leaving the interior unchanged: strip whitespace, then
remove quote characters from the two ends only. -/
def specSurroundingClean (s : String) : String :=
  String.mk
    ((((pyStripChars s.data).dropWhile (fun c => c == quoteChar || c == aposChar)).reverse.dropWhile
      (fun c => c == quoteChar || c == aposChar)).reverse)

/-- C8 counterexample: on the response `Don t Panic` (with an interior
single quote), the code does not return the response with only surrounding
quotes and whitespace stripped — the interior quote is deleted too. -/
theorem c8_counterexample :
    (generate_daily_topic
      { modelConfigured := true, topicResponse := Except.ok interiorExample,
        descResponse := Except.error "", rand := 0 }).toOption
      ≠ some (specSurroundingClean interiorExample) := by decide

/-- Concrete instance of C8 (amended): a quoted, padded response is
returned with quotes and padding removed. -/
theorem c8_witness :
    generate_daily_topic
      { modelConfigured := true,
        topicResponse := Except.ok " \"Quantum Leap\" ",
        descResponse := Except.error "", rand := 0 }
      = Except.ok (cleanTopic " \"Quantum Leap\" ") :=
  (c8_quote_cleaning
    { modelConfigured := true,
      topicResponse := Except.ok " \"Quantum Leap\" ",
      descResponse := Except.error "", rand := 0 }
    " \"Quantum Leap\" " rfl rfl).1

/-- The external transport behaviour seen by one `_send_email` call
(daily_scheduler.py:187-191): whether the `SMTP_SSL` connection attempt,
the `login`, and the `send_message` each succeed (a `false` models that
step raising). -/
structure SmtpEnv where
  connectOk : Bool
  loginOk : Bool
  sendOk : Bool

/-- Observable resource events of one `_send_email` call: connections
opened, connections closed, and transmission attempts made. -/
structure SmtpTrace where
  opens : Nat
  closes : Nat
  sendAttempts : Nat

/-- The `try` body of `DailyTopicGenerator._send_email`
(daily_scheduler.py:175-193): build the message, then
`with SMTP_SSL(...) as server: login; send_message`. A failing connection
attempt raises before any connection is opened; once the `with` block is
entered, its exit closes the connection on every path, raising or not.
`send_message` is attempted only after a successful `login`. -/
def send_email_try (env : SmtpEnv) : Except String Bool × SmtpTrace :=
  if env.connectOk then
    let inner : Except String Bool × Nat :=
      if env.loginOk then
        if env.sendOk then (Except.ok true, 1) else (Except.error "send_message", 1)
      else (Except.error "login", 0)
    (inner.1, { opens := 1, closes := 1, sendAttempts := inner.2 })
  else (Except.error "SMTP_SSL", { opens := 0, closes := 0, sendAttempts := 0 })

/-- `DailyTopicGenerator._send_email` (daily_scheduler.py:173-197): the
`except Exception` arm turns any raised error into a logged `False`
return. -/
def send_email (env : SmtpEnv) : Except String Bool × SmtpTrace :=
  let p := send_email_try env
  match p.1 with
  | Except.ok b => (Except.ok b, p.2)
  | Except.error _ => (Except.ok false, p.2)

/-- C3: `_send_email` never lets an exception past its boundary — it
returns `Except.ok true` exactly when connection, authentication and
transmission all succeed and `Except.ok false` on any failure; every
connection it opens is closed (opens equal closes on every path); and it
makes at most one transmission attempt (no retry). -/
theorem c3_dispatch_single_attempt (env : SmtpEnv) :
    (send_email env).1 = Except.ok (env.connectOk && env.loginOk && env.sendOk) ∧
    (send_email env).2.opens = (send_email env).2.closes ∧
    (send_email env).2.sendAttempts ≤ 1 := by
  rcases env with ⟨a, b, c⟩
  rcases a <;> rcases b <;> rcases c <;> exact ⟨rfl, rfl, by decide⟩

/-- The subject construction of `send_daily_topic_email`
(daily_scheduler.py:106). -/
def composeSubject (topic : String) : String :=
  "📚 Your Daily Learning Topic: " ++ topic

/-- The HTML body of `send_daily_topic_email` before the interpolated
topic (daily_scheduler.py:108-129). -/
def bodyPre : String :=
  "\n            <!DOCTYPE html>"
    ++ "\n            <html>"
    ++ "\n            <head>"
    ++ "\n                <style>"
    ++ "\n                    body \x7b font-family: Arial, sans-serif; line-height: 1.6; \x7d"
    ++ "\n                    .header \x7b background: linear-gradient(135deg, #667eea 0%, #764ba2 100%); color: white; padding: 20px; text-align: center; \x7d"
    ++ "\n                    .content \x7b padding: 20px; \x7d"
    ++ "\n                    .topic \x7b font-size: 24px; font-weight: bold; color: #333; margin: 20px 0; \x7d"
    ++ "\n                    .description \x7b font-size: 16px; color: #666; margin: 15px 0; \x7d"
    ++ "\n                    .cta \x7b background: #667eea; color: white; padding: 12px 30px; text-decoration: none; border-radius: 5px; display: inline-block; margin: 10px 0; \x7d"
    ++ "\n                    .footer \x7b background: #f4f4f4; padding: 15px; text-align: center; font-size: 12px; color: #666; \x7d"
    ++ "\n                </style>"
    ++ "\n            </head>"
    ++ "\n            <body>"
    ++ "\n                <div class=\"header\">"
    ++ "\n                    <h1>🎯 Daily Learning Topic</h1>"
    ++ "\n                    <p>Expand your knowledge every day</p>"
    ++ "\n                </div>"
    ++ "\n                "
    ++ "\n                <div class=\"content\">"
    ++ "\n                    <div class=\"topic\">✨ "

/-- The HTML body between the interpolated topic and the interpolated
description (daily_scheduler.py:129-130). -/
def bodyMid : String :=
  "</div>"
    ++ "\n                    <div class=\"description\">"

/-- The HTML body after the interpolated description
(daily_scheduler.py:130-157). -/
def bodyPost : String :=
  "</div>"
    ++ "\n                    "
    ++ "\n                    <p><strong>Why explore this topic today?</strong></p>"
    ++ "\n                    <ul>"
    ++ "\n                        <li>Stay updated with current trends</li>"
    ++ "\n                        <li>Enhance your professional skills</li>"
    ++ "\n                        <li>Discover new opportunities</li>"
    ++ "\n                        <li>Boost your creativity and innovation</li>"
    ++ "\n                    </ul>"
    ++ "\n                    "
    ++ "\n                    <p><strong>Suggested activities:</strong></p>"
    ++ "\n                    <ul>"
    ++ "\n                        <li>Research the latest developments</li>"
    ++ "\n                        <li>Read related articles or papers</li>"
    ++ "\n                        <li>Discuss with colleagues</li>"
    ++ "\n                        <li>Apply concepts to your work</li>"
    ++ "\n                    </ul>"
    ++ "\n                    "
    ++ "\n                    <p>Happy learning! 🚀</p>"
    ++ "\n                </div>"
    ++ "\n                "
    ++ "\n                <div class=\"footer\">"
    ++ "\n                    <p>This daily topic was generated automatically by your AI Learning Assistant.</p>"
    ++ "\n                    <p>You\x27re receiving this email because you subscribed to daily learning topics.</p>"
    ++ "\n                </div>"
    ++ "\n            </body>"
    ++ "\n            </html>"
    ++ "\n            "

/-- The composed email body of `send_daily_topic_email`
(daily_scheduler.py:108-157): the f-string interpolating `topic` and
`description` into the fixed HTML template, a pure function of its two
arguments. -/
def composeBody (topic description : String) : String :=
  bodyPre ++ topic ++ bodyMid ++ description ++ bodyPost

/-- `needle` occurs verbatim inside `hay`. -/
def isSubstrOf (needle hay : String) : Prop :=
  ∃ a b, hay = a ++ needle ++ b

/-- C5: composition is a pure function of its two string arguments — the
body is built from them alone — and for every topic `t` and description
`d` the composed body contains `t` and `d` verbatim while the subject
embeds `t`. -/
theorem c5_compose_contains_verbatim (t d : String) :
    isSubstrOf t (composeBody t d) ∧
    isSubstrOf d (composeBody t d) ∧
    isSubstrOf t (composeSubject t) := by
  refine ⟨⟨bodyPre, bodyMid ++ d ++ bodyPost, ?_⟩,
          ⟨bodyPre ++ t ++ bodyMid, bodyPost, ?_⟩,
          ⟨"📚 Your Daily Learning Topic: ", "", ?_⟩⟩
  · simp [composeBody, String.append_assoc]
  · simp [composeBody, String.append_assoc]
  · simp [composeSubject, String.append_empty]

/-- The shared scheduler state: the `Scheduler.running` flag
(daily_scheduler.py:202), the number of poll-loop threads spawned by
`start_scheduler` calls (daily_scheduler.py:228-230; each spawned loop
stays active while `running` is true and nothing ever joins it), and the
module-global `schedule` job registry that `schedule.every()` appends to
(daily_scheduler.py:207). -/
structure SysState where
  running : Bool
  activeLoops : Nat
  jobs : List SchedJob
  deriving Repr

/-- State before any scheduler call: flag down, no poll loop, empty global
registry. -/
def initSysState : SysState := { running := false, activeLoops := 0, jobs := [] }

/-- `Scheduler.stop_scheduler` (daily_scheduler.py:235-238): sets
`self.running = False` and prints; nothing else is touched. -/
def stop_scheduler (s : SysState) : SysState := { s with running := false }

/-- `Scheduler.start_scheduler` (daily_scheduler.py:218-233): sets
`self.running = True` and unconditionally starts one more poll-loop
thread; there is no guard against an already running scheduler. -/
def start_scheduler (s : SysState) : SysState :=
  { s with running := true, activeLoops := s.activeLoops + 1 }

/-- `Scheduler.schedule_daily_email` (daily_scheduler.py:204-211):
`schedule.every().day.at("23:50:00").do(...)` appends one new daily job to
the module-global registry, initialised at registration instant `t`. -/
def schedule_daily_email (t : Nat) (s : SysState) : SysState :=
  { s with jobs := s.jobs ++ [initJob t] }

/-- `start_daily_scheduler` (daily_scheduler.py:252-257): builds a fresh
`Scheduler`, registers the daily job, then starts the poll loop. -/
def start_daily_scheduler (t : Nat) (s : SysState) : SysState :=
  start_scheduler (schedule_daily_email t s)

/-- `schedule.run_pending()` over the whole global registry at wake
instant `now`: every registered job is visited; the due ones run. Returns
the updated registry and the number of jobs that fired. -/
def run_pending (now : Nat) (o : Bool) (jobs : List SchedJob) : List SchedJob × Nat :=
  ((jobs.map (runPendingJob now o)).map Prod.fst,
   ((jobs.map (runPendingJob now o)).filter (fun p => p.2)).length)

/-- One wake of the poll loop body (daily_scheduler.py:222-225): while
`self.running` it calls `schedule.run_pending()` and sleeps; once the flag
is down the loop exits without touching the registry. -/
def sysWake (now : Nat) (o : Bool) (s : SysState) : SysState × Nat :=
  if s.running then
    ({ s with jobs := (run_pending now o s.jobs).1 }, (run_pending now o s.jobs).2)
  else (s, 0)

/-- Total number of job fires over a sequence of wakes. -/
def sysFires (o : Bool) : List Nat → SysState → Nat
  | [], _ => 0
  | now :: rest, s => (sysWake now o s).2 + sysFires o rest (sysWake now o s).1

theorem sysFires_stopped (o : Bool) :
    ∀ (wakes : List Nat) (s : SysState), s.running = false →
      sysFires o wakes s = 0 := by
  intro wakes
  induction wakes with
  | nil => intro s _; rfl
  | cons now rest ih =>
    intro s h
    have hw : sysWake now o s = (s, 0) := by simp [sysWake, h]
    simp only [sysFires, hw, Nat.zero_add]
    exact ih s h

/-- C7: `stop_scheduler` is idempotent and moves the state machine to
STOPPED, and from any stopped state the poll loop fires nothing at any of
its subsequent wakes — no fire can occur until a new `start` raises the
flag again. -/
theorem c7_stop_halts_fires (s : SysState) (o : Bool) (wakes : List Nat) :
    stop_scheduler (stop_scheduler s) = stop_scheduler s ∧
    (stop_scheduler s).running = false ∧
    sysFires o wakes (stop_scheduler s) = 0 :=
  ⟨rfl, rfl, sysFires_stopped o wakes _ rfl⟩

/-- C6 counterexample: starting twice from the initial state via
`start_daily_scheduler` does leave the flag up, but produces two active
poll loops and two registered daily jobs, so the claimed "exactly one
active poll loop and exactly one registered daily job" is false. -/
theorem c6_counterexample :
    ¬ ((start_daily_scheduler 0 (start_daily_scheduler 0 initSysState)).running = true ∧
       (start_daily_scheduler 0 (start_daily_scheduler 0 initSysState)).activeLoops = 1 ∧
       (start_daily_scheduler 0 (start_daily_scheduler 0 initSysState)).jobs.length = 1) := by
  decide

/-- C6 (amended): calling start twice in succession leaves the flag
RUNNING, but start is not an idempotent no-op — each call spawns one more
poll-loop thread, and each `start_daily_scheduler` call also registers one
more daily job in the shared registry. -/
theorem c6_start_not_idempotent (s : SysState) (t1 t2 : Nat) :
    (start_daily_scheduler t2 (start_daily_scheduler t1 s)).running = true ∧
    (start_daily_scheduler t2 (start_daily_scheduler t1 s)).activeLoops
      = s.activeLoops + 2 ∧
    (start_daily_scheduler t2 (start_daily_scheduler t1 s)).jobs.length
      = s.jobs.length + 2 ∧
    (start_scheduler (start_scheduler s)).running = true ∧
    (start_scheduler (start_scheduler s)).activeLoops = s.activeLoops + 2 := by
  refine ⟨rfl, rfl, ?_, rfl, rfl⟩
  simp [start_daily_scheduler, schedule_daily_email, start_scheduler]

/-- Log line printed by `schedule_daily_email` (daily_scheduler.py:210). -/
def scheduleLogMessage : String := "📧 Emails scheduled for 1:00 PM daily"

/-- Log line printed by `start_scheduler` (daily_scheduler.py:233). -/
def startLogMessage : String := "📧 Daily topics will be sent at 1:00 PM"

/-- C9: the literal fire time registered with the `schedule` library is
`23:50:00`, not `13:00:00`, while both log/documentation messages state
`1:00 PM`: the registered constant differs from the documented time. -/
theorem c9_registered_time_mismatch :
    registeredFireTime = "23:50:00" ∧
    registeredFireTime ≠ "13:00:00" ∧
    fireTodMinutes ≠ 13 * 60 ∧
    isSubstrOf "1:00 PM" scheduleLogMessage ∧
    isSubstrOf "1:00 PM" startLogMessage :=
  ⟨rfl, by decide, by decide,
   ⟨"📧 Emails scheduled for ", " daily", by decide⟩,
   ⟨"📧 Daily topics will be sent at ", "", by decide⟩⟩

/-- The public scheduler operations an external caller can interleave. -/
inductive SchedOp where
  | start : SchedOp
  | stop : SchedOp
  | scheduleDaily : Nat → SchedOp
  | startDaily : Nat → SchedOp

/-- Apply one scheduler operation. -/
def applyOp : SchedOp → SysState → SysState
  | SchedOp.start, s => start_scheduler s
  | SchedOp.stop, s => stop_scheduler s
  | SchedOp.scheduleDaily t, s => schedule_daily_email t s
  | SchedOp.startDaily t, s => start_daily_scheduler t s

/-- Apply a sequence of scheduler operations. -/
def applyOps : List SchedOp → SysState → SysState
  | [], s => s
  | op :: rest, s => applyOps rest (applyOp op s)

theorem applyOp_jobs_grow (op : SchedOp) (s : SysState) :
    ∃ tl, (applyOp op s).jobs = s.jobs ++ tl := by
  rcases op with _ | _ | t | t
  · exact ⟨[], by simp [applyOp, start_scheduler]⟩
  · exact ⟨[], by simp [applyOp, stop_scheduler]⟩
  · exact ⟨[initJob t], rfl⟩
  · exact ⟨[initJob t],
      by simp [applyOp, start_daily_scheduler, start_scheduler, schedule_daily_email]⟩

theorem applyOps_jobs_grow :
    ∀ (ops : List SchedOp) (s : SysState),
      ∃ tl, (applyOps ops s).jobs = s.jobs ++ tl := by
  intro ops
  induction ops with
  | nil => intro s; exact ⟨[], by simp [applyOps]⟩
  | cons op rest ih =>
    intro s
    obtain ⟨tl1, h1⟩ := applyOp_jobs_grow op s
    obtain ⟨tl2, h2⟩ := ih (applyOp op s)
    exact ⟨tl1 ++ tl2, by rw [applyOps, h2, h1, List.append_assoc]⟩

theorem run_pending_all_jobs (now : Nat) (o : Bool) :
    ∀ jobs : List SchedJob,
      (run_pending now o jobs).2
        = (jobs.filter (fun j => j.nextRun ≤ now)).length ∧
      (run_pending now o jobs).1.length = jobs.length := by
  intro jobs
  induction jobs with
  | nil => exact ⟨rfl, rfl⟩
  | cons j rest ih =>
    by_cases hdue : j.nextRun ≤ now
    · constructor
      · simpa [run_pending, runPendingJob, hdue, List.filter] using ih.1
      · simp [run_pending, runPendingJob, hdue]
    · constructor
      · simpa [run_pending, runPendingJob, hdue, List.filter] using ih.1
      · simp [run_pending, runPendingJob, hdue]

/-- C10: `stop_scheduler` changes only the running flag — the global job
registry and the spawned loops are untouched; `schedule_daily_email`
appends one job to the shared registry and nothing ever removes one, so
across any sequence of start/stop/schedule operations the registry only
grows (the old registry stays a prefix); and a poll wake from a started
state runs `run_pending` over the entire registry — every registered job
is visited, exactly the due ones fire, and all stay registered. -/
theorem c10_stop_preserves_registry (s : SysState) (now t : Nat) (o : Bool) :
    stop_scheduler s = { s with running := false } ∧
    (stop_scheduler s).jobs = s.jobs ∧
    (stop_scheduler s).activeLoops = s.activeLoops ∧
    (schedule_daily_email t s).jobs = s.jobs ++ [initJob t] ∧
    (∀ ops : List SchedOp, ∃ tl, (applyOps ops s).jobs = s.jobs ++ tl) ∧
    (sysWake now o (start_scheduler s)).2
      = (s.jobs.filter (fun j => j.nextRun ≤ now)).length ∧
    (sysWake now o (start_scheduler s)).1.jobs.length = s.jobs.length := by
  refine ⟨rfl, rfl, rfl, rfl, fun ops => applyOps_jobs_grow ops s, ?_, ?_⟩
  · have h := run_pending_all_jobs now o s.jobs
    rw [sysWake]
    simp only [start_scheduler, if_pos]
    exact h.1
  · have h := run_pending_all_jobs now o s.jobs
    rw [sysWake]
    simp only [start_scheduler, if_pos]
    exact h.2
